import Mathlib

/-!
Shallow embedding of the AMQP transporter (src/transporters/amqp.js).

The transporter maps typed inter-node packets onto AMQP queues, fanout
exchanges and bindings.  We model the transporter object state as a Lean
structure, JS objects holding queue options as records of optional fields,
and every call made into the amqplib channel as a constructor of a
BrokerCall trace; each method of the class becomes a pure Lean function
returning the updated state together with the list of broker calls it
issues, in issue order.
-/

namespace AmqpSpec

/-- Modelled from the spec: the packet category constants imported from
../packets (that file is not part of the provided sources).  The spec
section 3 enumerates the categories REQUEST, RESPONSE, DISCOVER, INFO,
DISCONNECT, HEARTBEAT, PING, PONG, EVENT, UNKNOWN as distinct
discriminant values; we use the category names themselves as the
underlying strings.  Only distinctness of the values matters below. -/
def PACKET_REQUEST : String := "REQUEST"

/-- Packet category RESPONSE (see PACKET_REQUEST). -/
def PACKET_RESPONSE : String := "RESPONSE"

/-- Packet category EVENT (see PACKET_REQUEST). -/
def PACKET_EVENT : String := "EVENT"

/-- Packet category DISCOVER (see PACKET_REQUEST). -/
def PACKET_DISCOVER : String := "DISCOVER"

/-- Packet category INFO (see PACKET_REQUEST). -/
def PACKET_INFO : String := "INFO"

/-- Packet category DISCONNECT (see PACKET_REQUEST). -/
def PACKET_DISCONNECT : String := "DISCONNECT"

/-- Packet category HEARTBEAT (see PACKET_REQUEST). -/
def PACKET_HEARTBEAT : String := "HEARTBEAT"

/-- Packet category PING (see PACKET_REQUEST). -/
def PACKET_PING : String := "PING"

/-- Packet category PONG (see PACKET_REQUEST). -/
def PACKET_PONG : String := "PONG"

/-- Packet category UNKNOWN, named PACKET_UNKNOW in the source. -/
def PACKET_UNKNOW : String := "UNKNOWN"

/-- A JS options object as used for assertQueue: each field is present
(some) or absent (none).  The source only ever puts messageTtl and
autoDelete into the computed per-category options. -/
structure PacketOptions where
  messageTtl : Option Int
  autoDelete : Option Bool
deriving DecidableEq

/-- The empty options object. -/
def emptyQueueOptions : PacketOptions := { messageTtl := none, autoDelete := none }

/-- Object.assign(base, over): fields present in the override win. -/
def mergeOptions (base over : PacketOptions) : PacketOptions :=
  { messageTtl := match over.messageTtl with | some v => some v | none => base.messageTtl,
    autoDelete := match over.autoDelete with | some v => some v | none => base.autoDelete }

/-- Embedding of AmqpTransporter._getQueueOptions (amqp.js lines 199-228).
The switch leaves packetOptions undefined for any key it does not list
(Object.assign then throws in JS); we return none for those keys.
eventTimeToLive and queueOptions are the corresponding opts.amqp fields. -/
def _getQueueOptions (eventTimeToLive : Int) (queueOptions : PacketOptions)
    (packetType : String) : Option PacketOptions :=
  let packetOptions : Option PacketOptions :=
    if packetType = PACKET_REQUEST ∨ packetType = PACKET_RESPONSE then
      some { messageTtl := none, autoDelete := none }
    else if packetType = PACKET_DISCOVER ∨ packetType = PACKET_DISCONNECT ∨
        packetType = PACKET_UNKNOW ∨ packetType = PACKET_INFO ∨
        packetType = PACKET_HEARTBEAT ∨ packetType = PACKET_PING ∨
        packetType = PACKET_PONG then
      some { messageTtl := some 5000, autoDelete := some true }
    else if packetType = PACKET_EVENT then
      some { messageTtl := some eventTimeToLive, autoDelete := some true }
    else if packetType = PACKET_EVENT ++ "LB" then
      some { messageTtl := none, autoDelete := none }
    else
      none
  packetOptions.map (fun base => mergeOptions base queueOptions)

/-- A policy is non-expiring when it sets no message time-to-live and does
not request queue auto-deletion. -/
def nonExpiring (o : PacketOptions) : Bool :=
  o.messageTtl.isNone && !(o.autoDelete = some true)

/-- The ten enumerated packet categories. -/
def enumeratedCategories : List String :=
  [PACKET_REQUEST, PACKET_RESPONSE, PACKET_EVENT, PACKET_DISCOVER, PACKET_INFO,
   PACKET_DISCONNECT, PACKET_HEARTBEAT, PACKET_PING, PACKET_PONG, PACKET_UNKNOW]

/-- The spec claims the policy is keyed by the enumerated categories plus
two synthetic load-balanced keys; the code builds its one synthetic key as
PACKET_EVENT ++ "LB", so the claimed REQUEST one would be
PACKET_REQUEST ++ "LB". -/
def claimedPolicyKeys : List String :=
  enumeratedCategories ++ [PACKET_REQUEST ++ "LB", PACKET_EVENT ++ "LB"]

/-- The keys _getQueueOptions actually handles. -/
def handledPolicyKeys : List String :=
  enumeratedCategories ++ [PACKET_EVENT ++ "LB"]

/-- Conclusion of the amended claim C1, for time-to-live ttl and key t. -/
def C1Concl (ttl : Int) (t : String) : Prop :=
  ∃ o, _getQueueOptions ttl emptyQueueOptions t = some o ∧
    (nonExpiring o = true ↔
      (t = PACKET_REQUEST ∨ t = PACKET_RESPONSE ∨ t = PACKET_EVENT ++ "LB")) ∧
    (¬ (t = PACKET_REQUEST ∨ t = PACKET_RESPONSE ∨ t = PACKET_EVENT ++ "LB") →
      o.autoDelete = some true ∧ ∃ m, o.messageTtl = some m ∧ 0 < m)

/-- C1, counterexample: the claim asserts the topology-policy function is
total over the enumerated categories plus BOTH synthetic load-balanced
keys, REQUEST-LB included.  The switch in _getQueueOptions has no case for
the synthetic request key (only PACKET_EVENT ++ "LB"), so on that key
packetOptions stays undefined and the function crashes (modelled: none). -/
theorem c1_getQueueOptions_counterexample :
    (PACKET_REQUEST ++ "LB") ∈ claimedPolicyKeys ∧
    _getQueueOptions 5000 emptyQueueOptions (PACKET_REQUEST ++ "LB") = none := by
  decide

/-- C1, amended: with an empty caller queueOptions override and a positive
configured eventTimeToLive, _getQueueOptions is total over the enumerated
categories plus the single synthetic EVENT load-balanced key (there is no
REQUEST load-balanced key; shared request queues reuse the plain REQUEST
policy), returns a non-expiring policy exactly on REQUEST, RESPONSE and
EVENT-LB, and on every other enumerated category returns autoDelete true
together with a positive message time-to-live. -/
theorem c1_getQueueOptions_policy (ttl : Int) (httl : 0 < ttl) (t : String)
    (ht : t ∈ handledPolicyKeys) : C1Concl ttl t := by
  have hcases :
      t = PACKET_REQUEST ∨ t = PACKET_RESPONSE ∨ t = PACKET_EVENT ∨
      t = PACKET_DISCOVER ∨ t = PACKET_INFO ∨ t = PACKET_DISCONNECT ∨
      t = PACKET_HEARTBEAT ∨ t = PACKET_PING ∨ t = PACKET_PONG ∨
      t = PACKET_UNKNOW ∨ t = PACKET_EVENT ++ "LB" := by
    simpa [handledPolicyKeys, enumeratedCategories] using ht
  rcases hcases with rfl | rfl | rfl | rfl | rfl | rfl | rfl | rfl | rfl | rfl | rfl
  · exact ⟨{ messageTtl := none, autoDelete := none }, rfl, by decide,
      fun hc => absurd (Or.inl rfl) hc⟩
  · exact ⟨{ messageTtl := none, autoDelete := none }, rfl, by decide,
      fun hc => absurd (Or.inr (Or.inl rfl)) hc⟩
  · exact ⟨{ messageTtl := some ttl, autoDelete := some true }, rfl,
      ⟨fun h => by simp [nonExpiring] at h, fun h => absurd h (by decide)⟩,
      fun _ => ⟨rfl, ttl, rfl, httl⟩⟩
  · exact ⟨{ messageTtl := some 5000, autoDelete := some true }, rfl, by decide,
      fun _ => ⟨rfl, 5000, rfl, by decide⟩⟩
  · exact ⟨{ messageTtl := some 5000, autoDelete := some true }, rfl, by decide,
      fun _ => ⟨rfl, 5000, rfl, by decide⟩⟩
  · exact ⟨{ messageTtl := some 5000, autoDelete := some true }, rfl, by decide,
      fun _ => ⟨rfl, 5000, rfl, by decide⟩⟩
  · exact ⟨{ messageTtl := some 5000, autoDelete := some true }, rfl, by decide,
      fun _ => ⟨rfl, 5000, rfl, by decide⟩⟩
  · exact ⟨{ messageTtl := some 5000, autoDelete := some true }, rfl, by decide,
      fun _ => ⟨rfl, 5000, rfl, by decide⟩⟩
  · exact ⟨{ messageTtl := some 5000, autoDelete := some true }, rfl, by decide,
      fun _ => ⟨rfl, 5000, rfl, by decide⟩⟩
  · exact ⟨{ messageTtl := some 5000, autoDelete := some true }, rfl, by decide,
      fun _ => ⟨rfl, 5000, rfl, by decide⟩⟩
  · exact ⟨{ messageTtl := none, autoDelete := none }, rfl, by decide,
      fun hc => absurd (Or.inr (Or.inr rfl)) hc⟩

/-- Witness for c1_getQueueOptions_policy at ttl 5000 and category INFO. -/
theorem c1_getQueueOptions_policy_witness :
    (0 : Int) < 5000 ∧ PACKET_INFO ∈ handledPolicyKeys ∧ C1Concl 5000 PACKET_INFO :=
  ⟨by decide, by decide,
    c1_getQueueOptions_policy 5000 (by decide) PACKET_INFO (by decide)⟩

/-- Payload of a packet; only the fields the transporter reads are kept.
groups is optional (absent on most packets); event and action are the
names read when building load-balanced queue names. -/
structure Payload where
  groups : Option (List String)
  event : String
  action : String
deriving DecidableEq

/-- A packet: category string, optional target node and payload.  We use
the packet value itself as its serialized form (serialization is an
external collaborator); packet.serialize() in the source snapshots the
payload at call time, which the model reproduces by recording the current
packet value in each broker call. -/
structure Packet where
  type : String
  target : Option String
  payload : Payload
deriving DecidableEq

/-- One call into the amqplib channel or connection, as issued by the
transporter, with the arguments the claims talk about. -/
inductive BrokerCall where
  | sendToQueue (queue : String) (payload : Packet)
  | publishEx (exchange : String) (routingKey : String) (payload : Packet)
  | assertQueue (queue : String) (opts : Option PacketOptions)
  | assertExchange (exchange : String)
  | bindQueue (queue : String) (exchange : String) (routingKey : String)
  | unbindQueue (queue : String) (exchange : String) (routingKey : String)
  | consume (queue : String) (cmd : String) (needAck : Bool) (noAck : Bool)
  | channelClose
  | connectionClose
deriving DecidableEq

/-- An event entry of a local service definition: its name and the
optional group configured on it. -/
structure ServiceEvent where
  name : String
  group : Option String
deriving DecidableEq

/-- A local service as reported by broker.getLocalNodeInfo().services:
name, and the action and event maps when they are objects (none models a
service without that field). -/
structure Service where
  name : String
  actions : Option (List String)
  events : Option (List ServiceEvent)
deriving DecidableEq

/-- The transporter state: configuration (prefix - named pfx since prefix
is a Lean keyword - node id, amqp options) plus the mutable fields
connection, channel and bindings of the class.  channel and connection
are booleans (handle present or null); bindings is null (none) only after
a completed disconnect.  services models the local node info snapshot the
broker returns. -/
structure Transporter where
  pfx : String
  nodeID : String
  eventTimeToLive : Int
  queueOptions : PacketOptions
  consumeNoAck : Option Bool
  channel : Bool
  connection : Bool
  bindings : Option (List (String × String × String))
  services : List Service
deriving DecidableEq

/-- Modelled from the spec: getTopicName comes from the base transporter
class (src/transporters/base.js, not among the provided sources).  Spec
section 6 fixes the naming convention: prefix.category for exchanges and
control queues and prefix.category.nodeID for per-node queues (no suffix
when the node id is absent). -/
def getTopicName (pfx cmd : String) (nodeID : Option String) : String :=
  match nodeID with
  | some n => if n = "" then pfx ++ "." ++ cmd else pfx ++ "." ++ cmd ++ "." ++ n
  | none => pfx ++ "." ++ cmd

/-- JS truthiness test for the target field: null/undefined and the empty
string are falsy. -/
def jsFalsy : Option String → Bool
  | none => true
  | some s => s = ""

/-- Replace the groups field of a packet payload (the in-place mutation
packet.payload.groups = [group] of publish). -/
def setGroups (p : Packet) (gs : List String) : Packet :=
  { p with payload := { p.payload with groups := some gs } }

/-- Name of the load-balanced event queue of publish line 397:
prefix.EVENTB.group.event, built with PACKET_EVENT ++ "B". -/
def lbEventQueue (pfx g ev : String) : String :=
  pfx ++ "." ++ (PACKET_EVENT ++ "B") ++ "." ++ g ++ "." ++ ev

/-- Name of the shared per-action request queue of publish line 411 and
_makeServiceSpecificSubscriptions line 347: prefix.REQUESTB.action. -/
def lbRequestQueue (pfx action : String) : String :=
  pfx ++ "." ++ (PACKET_REQUEST ++ "B") ++ "." ++ action

/-- The groups.forEach loop of publish (lines 396-401): for each group the
payload's groups field is overwritten with that single group, then the
packet is serialized and sent to the group's queue.  Returns the packet
after the final mutation together with the sends in order. -/
def eventGroupSends (pfx : String) : Packet → List String → Packet × List BrokerCall
  | p, [] => (p, [])
  | p, g :: rest =>
    let p2 := setGroups p [g]
    let r := eventGroupSends pfx p2 rest
    (r.1, BrokerCall.sendToQueue (lbEventQueue pfx g p.payload.event) p2 :: r.2)

/-- The group used for an event queue: the configured group when truthy,
otherwise the service name (service.events[event].group || service.name). -/
def eventGroup (s : Service) (ev : ServiceEvent) : String :=
  match ev.group with
  | some g => if g = "" then s.name else g
  | none => s.name

/-- Embedding of _makeServiceSpecificSubscriptions (lines 337-373) as the
broker calls it issues: for every local service with an actions object,
per action an assertQueue on the shared request queue with the REQUEST
options then a consumer built by _consumeCB(PACKET_REQUEST, true); for
every service with an events object, per event an assertQueue on the
group-scoped queue with the EVENT ++ LB options then a consumer built by
_consumeCB(PACKET_EVENT, true).  Both consume calls pass the raw
consumeOptions, whose noAck defaults to false. -/
def serviceTopologyCalls (tr : Transporter) : List BrokerCall :=
  tr.services.flatMap (fun s =>
    (match s.actions with
     | some acts => acts.flatMap (fun action =>
        [BrokerCall.assertQueue (lbRequestQueue tr.pfx action)
          (_getQueueOptions tr.eventTimeToLive tr.queueOptions PACKET_REQUEST),
         BrokerCall.consume (lbRequestQueue tr.pfx action) PACKET_REQUEST true
          ((tr.consumeNoAck).getD false)])
     | none => []) ++
    (match s.events with
     | some evs => evs.flatMap (fun ev =>
        [BrokerCall.assertQueue (lbEventQueue tr.pfx (eventGroup s ev) ev.name)
          (_getQueueOptions tr.eventTimeToLive tr.queueOptions (PACKET_EVENT ++ "LB")),
         BrokerCall.consume (lbEventQueue tr.pfx (eventGroup s ev) ev.name) PACKET_EVENT true
          ((tr.consumeNoAck).getD false)])
     | none => []))

/-- Embedding of publish (lines 385-427).  Returns the packet after any
in-place payload mutation together with the broker calls issued.  With no
channel nothing happens (line 386).  An EVENT with falsy target whose
payload carries a non-empty groups list goes through the per-group queue
sends and returns (lines 390-403; a present-but-empty list falls
through).  A REQUEST with null target goes to the shared action queue
(lines 410-414).  Otherwise a targeted packet goes to its queue and an
untargeted one to the fanout exchange with empty routing key (416-420),
and an untargeted INFO additionally triggers the service subscriptions
(423-425). -/
def publish (tr : Transporter) (packet : Packet) : Packet × List BrokerCall :=
  if tr.channel then
    let topic := getTopicName tr.pfx packet.type packet.target
    let lbGroups : Option (List String) :=
      if packet.type = PACKET_EVENT ∧ jsFalsy packet.target then packet.payload.groups
      else none
    match lbGroups with
    | some (g :: gs) => eventGroupSends tr.pfx packet (g :: gs)
    | _ =>
      if packet.type = PACKET_REQUEST ∧ packet.target = none then
        (packet, [BrokerCall.sendToQueue (lbRequestQueue tr.pfx packet.payload.action) packet])
      else
        let mainCalls := match packet.target with
          | some _ => [BrokerCall.sendToQueue topic packet]
          | none => [BrokerCall.publishEx topic "" packet]
        if packet.type = PACKET_INFO ∧ packet.target = none then
          (packet, mainCalls ++ serviceTopologyCalls tr)
        else
          (packet, mainCalls)
  else (packet, [])

/-- Embedding of subscribe (lines 295-330).  No channel: return with no
calls.  Non-null node id: assert the topic queue and consume with the
needAck-false callback and noAck defaulting to true.  Null node id:
record the binding (queue prefix.cmd.selfNode, exchange topic, empty
routing key) in this.bindings, assert the exchange and the queue, bind,
and consume with noAck defaulting to true.  (In JS a push on a null
bindings array would throw; bindings is only null after disconnect, when
the channel is null too, so that path is unreachable and the model keeps
bindings unchanged there.) -/
def subscribe (tr : Transporter) (cmd : String) (nodeID : Option String) :
    Transporter × List BrokerCall :=
  if tr.channel then
    let topic := getTopicName tr.pfx cmd nodeID
    match nodeID with
    | some _ =>
      (tr, [BrokerCall.assertQueue topic (_getQueueOptions tr.eventTimeToLive tr.queueOptions cmd),
            BrokerCall.consume topic cmd false ((tr.consumeNoAck).getD true)])
    | none =>
      let queueName := tr.pfx ++ "." ++ cmd ++ "." ++ tr.nodeID
      ({ tr with bindings := tr.bindings.map (fun bs => bs ++ [(queueName, topic, "")]) },
       [BrokerCall.assertExchange topic,
        BrokerCall.assertQueue queueName (_getQueueOptions tr.eventTimeToLive tr.queueOptions cmd),
        BrokerCall.bindQueue queueName topic "",
        BrokerCall.consume queueName cmd false ((tr.consumeNoAck).getD true)])
  else (tr, [])

/-- Which failures the broker injects during disconnect: whether the i-th
unbindQueue call rejects, and whether each close call rejects. -/
structure FailSpec where
  unbindFail : Nat → Bool
  channelCloseFail : Bool
  connectionCloseFail : Bool

/-- The failure-free broker behaviour. -/
def noFail : FailSpec :=
  { unbindFail := fun _ => false, channelCloseFail := false, connectionCloseFail := false }

/-- Embedding of disconnect (lines 178-190) under a failure injection.
When connection, channel and bindings are all set, every recorded binding
is unbound (Promise.all issues all the unbind calls); if any of them
rejects the promise chain jumps to the final catch, which only logs, so
the channel and connection close calls are skipped and the handles stay
set.  Otherwise the channel close is issued; if it rejects the connection
close is skipped.  Otherwise the connection close is issued; if it
rejects the handles stay set.  Only after all steps succeed are bindings,
channel and connection cleared.  When already disconnected the method
does nothing. -/
def disconnectF (tr : Transporter) (f : FailSpec) : Transporter × List BrokerCall :=
  match tr.bindings with
  | none => (tr, [])
  | some bs =>
    if tr.connection = true ∧ tr.channel = true then
      let unbinds := bs.map (fun b => BrokerCall.unbindQueue b.1 b.2.1 b.2.2)
      if (List.range bs.length).any f.unbindFail then
        (tr, unbinds)
      else if f.channelCloseFail then
        (tr, unbinds ++ [BrokerCall.channelClose])
      else if f.connectionCloseFail then
        (tr, unbinds ++ [BrokerCall.channelClose, BrokerCall.connectionClose])
      else
        ({ tr with bindings := none, channel := false, connection := false },
         unbinds ++ [BrokerCall.channelClose, BrokerCall.connectionClose])
    else (tr, [])

/-- The outcome of the injected message handler on one consumed message:
a synchronous (non-promise) result, or a promise that later fulfils or
rejects. -/
inductive HandlerResult where
  | sync
  | asyncOk
  | asyncFail
deriving DecidableEq

/-- An acknowledgement action on the channel. -/
inductive AckAction where
  | ack
  | nack
deriving DecidableEq

/-- Embedding of the callback built by _consumeCB (lines 238-262) for one
message: the ack and nack calls it issues, given the handler outcome and
whether the channel handle is still present at the synchronous call
(channelAtCall) and at promise completion (channelAtCompletion).  Without
needAck nothing is acknowledged.  With needAck, a promise result is acked
on fulfilment and nacked on rejection (the error is logged, not
rethrown), each guarded by the channel still existing; a synchronous
result is acked immediately when the channel exists. -/
def consumeCB (needAck : Bool) (result : HandlerResult)
    (channelAtCall channelAtCompletion : Bool) : List AckAction :=
  if needAck then
    match result with
    | HandlerResult.sync => if channelAtCall then [AckAction.ack] else []
    | HandlerResult.asyncOk => if channelAtCompletion then [AckAction.ack] else []
    | HandlerResult.asyncFail => if channelAtCompletion then [AckAction.nack] else []
  else []

/-- The last element of g0 :: gs. -/
def lastOf (g0 : String) : List String → String
  | [] => g0
  | g1 :: gs => lastOf g1 gs

/-- Overwriting the groups field twice keeps only the second write. -/
theorem setGroups_setGroups (p : Packet) (a b : List String) :
    setGroups (setGroups p a) b = setGroups p b := rfl

/-- The event name is untouched by a groups overwrite. -/
theorem setGroups_event (p : Packet) (a : List String) :
    (setGroups p a).payload.event = p.payload.event := rfl

/-- Closed form of the groups.forEach loop on a non-empty list: the final
packet carries the last group as its only group, and one send per group
is issued, in order, each with the payload rewritten to that group. -/
theorem eventGroupSends_eq (pfx : String) (p : Packet) (g0 : String) (gs : List String) :
    eventGroupSends pfx p (g0 :: gs) =
      (setGroups p [lastOf g0 gs],
       (g0 :: gs).map (fun g =>
         BrokerCall.sendToQueue (lbEventQueue pfx g p.payload.event) (setGroups p [g]))) := by
  induction gs generalizing p g0 with
  | nil => simp [eventGroupSends, lastOf]
  | cons g1 gs ih =>
    have h := ih (setGroups p [g0]) g1
    have hstep : eventGroupSends pfx p (g0 :: g1 :: gs) =
        ((eventGroupSends pfx (setGroups p [g0]) (g1 :: gs)).1,
         BrokerCall.sendToQueue (lbEventQueue pfx g0 p.payload.event) (setGroups p [g0]) ::
         (eventGroupSends pfx (setGroups p [g0]) (g1 :: gs)).2) := rfl
    rw [hstep, h]
    simp [setGroups_setGroups, setGroups_event, lastOf]

/-- A sample transporter configuration used by the witnesses. -/
def sampleTr : Transporter :=
  { pfx := "MOL", nodeID := "node-1", eventTimeToLive := 5000,
    queueOptions := emptyQueueOptions, consumeNoAck := none,
    channel := true, connection := true, bindings := some [],
    services := [{ name := "posts", actions := some ["posts.find"],
                   events := some [{ name := "user.created", group := none }] }] }

/-- Conclusion of claim C2 for a packet whose groups list is gs. -/
def C2Concl (tr : Transporter) (pkt : Packet) (gs : List String) : Prop :=
  (publish tr pkt).2 =
    gs.map (fun g =>
      BrokerCall.sendToQueue (lbEventQueue tr.pfx g pkt.payload.event) (setGroups pkt [g])) ∧
  (publish tr pkt).2.length = gs.length ∧
  ∀ e r q, BrokerCall.publishEx e r q ∉ (publish tr pkt).2

/-- C2: publishing an EVENT with null target and a non-empty groups list
of length n issues exactly n sendToQueue calls, one per group in order,
each to prefix.EVENTB.group.event (the EVENT-LB queue of that group) with
the serialized payload's groups rewritten to that single group, and no
exchange publish. -/
theorem c2_publish_event_groups (tr : Transporter) (pkt : Packet) (g0 : String)
    (gs : List String) (hch : tr.channel = true) (ht : pkt.type = PACKET_EVENT)
    (htg : pkt.target = none) (hg : pkt.payload.groups = some (g0 :: gs)) :
    C2Concl tr pkt (g0 :: gs) := by
  have hpub : publish tr pkt = eventGroupSends tr.pfx pkt (g0 :: gs) := by
    simp [publish, hch, ht, htg, hg, jsFalsy]
  refine ⟨?_, ?_, ?_⟩
  · rw [hpub, eventGroupSends_eq]
  · rw [hpub, eventGroupSends_eq]
    simp
  · intro e r q hmem
    rw [hpub, eventGroupSends_eq] at hmem
    simp only [List.mem_map] at hmem
    obtain ⟨g, _, habs⟩ := hmem
    exact BrokerCall.noConfusion habs

/-- Witness for c2_publish_event_groups: two groups g1, g2. -/
theorem c2_publish_event_groups_witness :
    C2Concl sampleTr
      { type := PACKET_EVENT, target := none,
        payload := { groups := some ["g1", "g2"], event := "user.created", action := "" } }
      ["g1", "g2"] :=
  c2_publish_event_groups sampleTr
    { type := PACKET_EVENT, target := none,
      payload := { groups := some ["g1", "g2"], event := "user.created", action := "" } }
    "g1" ["g2"] rfl rfl rfl rfl

/-- C3: publishing a REQUEST with null target issues exactly one
sendToQueue call, to the shared action queue prefix.REQUESTB.action (the
REQUEST-LB queue of that action), and nothing else. -/
theorem c3_publish_request_lb (tr : Transporter) (pkt : Packet)
    (hch : tr.channel = true) (ht : pkt.type = PACKET_REQUEST) (htg : pkt.target = none) :
    (publish tr pkt).2 =
      [BrokerCall.sendToQueue (lbRequestQueue tr.pfx pkt.payload.action) pkt] := by
  simp [publish, hch, ht, htg, jsFalsy, PACKET_REQUEST, PACKET_EVENT, PACKET_INFO]

/-- Witness for c3_publish_request_lb at a concrete request packet. -/
theorem c3_publish_request_lb_witness :
    (publish sampleTr
      { type := PACKET_REQUEST, target := none,
        payload := { groups := none, event := "", action := "posts.find" } }).2 =
      [BrokerCall.sendToQueue (lbRequestQueue sampleTr.pfx "posts.find")
        { type := PACKET_REQUEST, target := none,
          payload := { groups := none, event := "", action := "posts.find" } }] :=
  c3_publish_request_lb sampleTr
    { type := PACKET_REQUEST, target := none,
      payload := { groups := none, event := "", action := "posts.find" } }
    rfl rfl rfl

/-- C9: publishing an EVENT with null target and a non-empty groups list
mutates the caller's packet in place: afterwards payload.groups is the
one-element list holding the last group of the original list, and differs
from the original list whenever that list had more than one element. -/
theorem c9_publish_mutates_groups (tr : Transporter) (pkt : Packet) (g0 : String)
    (gs : List String) (hch : tr.channel = true) (ht : pkt.type = PACKET_EVENT)
    (htg : pkt.target = none) (hg : pkt.payload.groups = some (g0 :: gs)) :
    (publish tr pkt).1.payload.groups = some [lastOf g0 gs] ∧
    (gs ≠ [] → (publish tr pkt).1.payload.groups ≠ some (g0 :: gs)) := by
  have hpub : publish tr pkt = eventGroupSends tr.pfx pkt (g0 :: gs) := by
    simp [publish, hch, ht, htg, hg, jsFalsy]
  rw [hpub, eventGroupSends_eq]
  refine ⟨rfl, fun hne hcontra => ?_⟩
  have h2 : [lastOf g0 gs] = g0 :: gs := by
    simpa [setGroups] using hcontra
  cases gs with
  | nil => exact hne rfl
  | cons a l => simp at h2

/-- Witness for c9_publish_mutates_groups: after publishing with groups
g1, g2 the packet holds groups = [g2] and not the original list. -/
theorem c9_publish_mutates_groups_witness :
    (publish sampleTr
      { type := PACKET_EVENT, target := none,
        payload := { groups := some ["g1", "g2"], event := "user.created", action := "" } }).1.payload.groups
      = some [lastOf "g1" ["g2"]] ∧
    (["g2"] ≠ ([] : List String) →
      (publish sampleTr
        { type := PACKET_EVENT, target := none,
          payload := { groups := some ["g1", "g2"], event := "user.created", action := "" } }).1.payload.groups
        ≠ some ["g1", "g2"]) :=
  c9_publish_mutates_groups sampleTr
    { type := PACKET_EVENT, target := none,
      payload := { groups := some ["g1", "g2"], event := "user.created", action := "" } }
    "g1" ["g2"] rfl rfl rfl rfl

/-- C10: publishing an EVENT with null target and a present but empty
groups list issues no sendToQueue call and exactly one exchange publish,
to the EVENT fanout exchange prefix.EVENT with the empty routing key. -/
theorem c10_publish_event_empty_groups (tr : Transporter) (pkt : Packet)
    (hch : tr.channel = true) (ht : pkt.type = PACKET_EVENT) (htg : pkt.target = none)
    (hg : pkt.payload.groups = some []) :
    (publish tr pkt).2 =
      [BrokerCall.publishEx (tr.pfx ++ "." ++ PACKET_EVENT) "" pkt] := by
  simp [publish, hch, ht, htg, hg, jsFalsy, getTopicName,
    PACKET_REQUEST, PACKET_EVENT, PACKET_INFO]

/-- Witness for c10_publish_event_empty_groups. -/
theorem c10_publish_event_empty_groups_witness :
    (publish sampleTr
      { type := PACKET_EVENT, target := none,
        payload := { groups := some [], event := "user.created", action := "" } }).2 =
      [BrokerCall.publishEx (sampleTr.pfx ++ "." ++ PACKET_EVENT) ""
        { type := PACKET_EVENT, target := none,
          payload := { groups := some [], event := "user.created", action := "" } }] :=
  c10_publish_event_empty_groups sampleTr
    { type := PACKET_EVENT, target := none,
      payload := { groups := some [], event := "user.created", action := "" } }
    rfl rfl rfl rfl

/-- C4: for a message consumed with needAck true whose handler returns a
promise: if the channel is still present when the promise settles, a
rejection produces exactly one nack and zero acks and a fulfilment
exactly one ack and zero nacks; if the channel is gone by then, neither
ack nor nack is issued (and the model raises nothing). -/
theorem c4_consume_ack_nack (channelAtCall : Bool) :
    consumeCB true HandlerResult.asyncFail channelAtCall true = [AckAction.nack] ∧
    consumeCB true HandlerResult.asyncOk channelAtCall true = [AckAction.ack] ∧
    consumeCB true HandlerResult.asyncFail channelAtCall false = [] ∧
    consumeCB true HandlerResult.asyncOk channelAtCall false = [] := by
  cases channelAtCall <;> decide

/-- C6: with a null channel, publish completes with the packet unchanged
and no broker call, and subscribe completes with the state unchanged and
no broker call. -/
theorem c6_disconnected_noop (tr : Transporter) (h : tr.channel = false) :
    (∀ pkt, publish tr pkt = (pkt, [])) ∧
    (∀ cmd nodeID, subscribe tr cmd nodeID = (tr, [])) := by
  constructor
  · intro pkt; simp [publish, h]
  · intro cmd nodeID; simp [subscribe, h]

/-- Witness for c6_disconnected_noop at a concrete disconnected state and
concrete publish and subscribe requests. -/
theorem c6_disconnected_noop_witness :
    ({ sampleTr with channel := false } : Transporter).channel = false ∧
    publish { sampleTr with channel := false }
      { type := PACKET_REQUEST, target := none,
        payload := { groups := none, event := "", action := "posts.find" } } =
      ({ type := PACKET_REQUEST, target := none,
         payload := { groups := none, event := "", action := "posts.find" } }, []) ∧
    subscribe { sampleTr with channel := false } PACKET_INFO none =
      ({ sampleTr with channel := false }, []) :=
  ⟨rfl,
   (c6_disconnected_noop { sampleTr with channel := false } rfl).1 _,
   (c6_disconnected_noop { sampleTr with channel := false } rfl).2 PACKET_INFO none⟩

/-- Conclusion of claim C5 for a transporter whose binding registry holds
bs: a broadcast subscribe appends exactly one binding (queue
prefix.cmd.selfNode, exchange prefix.cmd, empty routing key), a repeated
subscribe for the same category appends another copy, a failure-free
disconnect of a connected transporter unbinds every recorded binding
exactly once, in registry order, before the channel close (which precedes
the connection close), and disconnect is a no-op whenever connection,
channel or bindings is already cleared. -/
def C5Concl (tr : Transporter) (cmd : String)
    (bs : List (String × String × String)) : Prop :=
  (subscribe tr cmd none).1.bindings =
    some (bs ++ [(tr.pfx ++ "." ++ cmd ++ "." ++ tr.nodeID, tr.pfx ++ "." ++ cmd, "")]) ∧
  (subscribe (subscribe tr cmd none).1 cmd none).1.bindings =
    some (bs ++ [(tr.pfx ++ "." ++ cmd ++ "." ++ tr.nodeID, tr.pfx ++ "." ++ cmd, ""),
                 (tr.pfx ++ "." ++ cmd ++ "." ++ tr.nodeID, tr.pfx ++ "." ++ cmd, "")]) ∧
  (tr.connection = true →
    (disconnectF tr noFail).2 =
      bs.map (fun b => BrokerCall.unbindQueue b.1 b.2.1 b.2.2) ++
        [BrokerCall.channelClose, BrokerCall.connectionClose]) ∧
  (∀ tr2 : Transporter,
    tr2.connection = false ∨ tr2.channel = false ∨ tr2.bindings = none →
    disconnectF tr2 noFail = (tr2, []))

/-- C5: every broadcast subscribe (null node id) records exactly one
binding in the registry, repeated calls for the same category record one
each, and disconnect, when connected, unbinds every recorded binding
exactly once before closing the channel, and is a no-op when already
disconnected. -/
theorem c5_binding_registry (tr : Transporter) (cmd : String)
    (bs : List (String × String × String)) (hch : tr.channel = true)
    (hb : tr.bindings = some bs) : C5Concl tr cmd bs := by
  refine ⟨?_, ?_, ?_, ?_⟩
  · simp [subscribe, getTopicName, hch, hb]
  · simp [subscribe, getTopicName, hch, hb]
  · intro hco
    simp [disconnectF, hb, hco, hch, noFail]
  · intro tr2 h2
    cases hb2 : tr2.bindings with
    | none => simp [disconnectF, hb2]
    | some bs2 =>
      rcases h2 with h2 | h2 | h2
      · simp [disconnectF, hb2, h2]
      · simp [disconnectF, hb2, h2]
      · rw [hb2] at h2; exact absurd h2 (by simp)

/-- Witness for c5_binding_registry at the sample transporter (empty
registry) and the INFO category. -/
theorem c5_binding_registry_witness :
    sampleTr.channel = true ∧ sampleTr.bindings = some [] ∧
    C5Concl sampleTr PACKET_INFO [] :=
  ⟨rfl, rfl, c5_binding_registry sampleTr PACKET_INFO [] rfl rfl⟩

/-- A connected transporter with one recorded binding, used for the
disconnect claims. -/
def c7Tr : Transporter :=
  { sampleTr with bindings := some [("MOL.INFO.node-1", "MOL.INFO", "")] }

/-- Failure injection in which every unbindQueue call rejects. -/
def c7UnbindFailure : FailSpec :=
  { unbindFail := fun _ => true, channelCloseFail := false, connectionCloseFail := false }

/-- C7, counterexample: the claim says a failure while unbinding does not
prevent the channel and connection from being closed.  On a connected
transporter with one recorded binding whose unbind rejects, disconnect
issues only the unbind call: the promise chain jumps to the final catch,
so neither close call is made and the handles stay set. -/
theorem c7_disconnect_counterexample :
    (disconnectF c7Tr c7UnbindFailure).2 =
      [BrokerCall.unbindQueue "MOL.INFO.node-1" "MOL.INFO" ""] ∧
    BrokerCall.channelClose ∉ (disconnectF c7Tr c7UnbindFailure).2 ∧
    BrokerCall.connectionClose ∉ (disconnectF c7Tr c7UnbindFailure).2 ∧
    (disconnectF c7Tr c7UnbindFailure).1.channel = true := by
  decide

/-- Conclusion of the amended claim C7 for a connected transporter whose
registry holds bs, under failure injection f. -/
def C7Concl (tr : Transporter) (bs : List (String × String × String))
    (f : FailSpec) : Prop :=
  ((List.range bs.length).any f.unbindFail = false ∧ f.channelCloseFail = false ∧
      f.connectionCloseFail = false →
    disconnectF tr f =
      ({ tr with bindings := none, channel := false, connection := false },
       bs.map (fun b => BrokerCall.unbindQueue b.1 b.2.1 b.2.2) ++
         [BrokerCall.channelClose, BrokerCall.connectionClose])) ∧
  ((List.range bs.length).any f.unbindFail = true →
    disconnectF tr f = (tr, bs.map (fun b => BrokerCall.unbindQueue b.1 b.2.1 b.2.2))) ∧
  ((List.range bs.length).any f.unbindFail = false ∧ f.channelCloseFail = true →
    disconnectF tr f =
      (tr, bs.map (fun b => BrokerCall.unbindQueue b.1 b.2.1 b.2.2) ++
        [BrokerCall.channelClose])) ∧
  ((List.range bs.length).any f.unbindFail = false ∧ f.channelCloseFail = false ∧
      f.connectionCloseFail = true →
    disconnectF tr f =
      (tr, bs.map (fun b => BrokerCall.unbindQueue b.1 b.2.1 b.2.2) ++
        [BrokerCall.channelClose, BrokerCall.connectionClose]))

/-- C7, amended: disconnect, when connected, unbinds every recorded
binding, then closes the channel, then the connection, then clears the
local handles, in that order when every step succeeds; a step that throws
is logged and swallowed (the caller never sees an error), but it makes
the chain skip the remaining steps - in particular a failure while
unbinding prevents the channel and connection close calls - rather than
proceeding best-effort. -/
theorem c7_disconnect_order (tr : Transporter) (bs : List (String × String × String))
    (f : FailSpec) (hb : tr.bindings = some bs) (hco : tr.connection = true)
    (hch : tr.channel = true) : C7Concl tr bs f := by
  refine ⟨?_, ?_, ?_, ?_⟩
  · rintro ⟨h1, h2, h3⟩
    simp [disconnectF, hb, hco, hch, h1, h2, h3]
  · intro h1
    simp [disconnectF, hb, hco, hch, h1]
  · rintro ⟨h1, h2⟩
    simp [disconnectF, hb, hco, hch, h1, h2]
  · rintro ⟨h1, h2, h3⟩
    simp [disconnectF, hb, hco, hch, h1, h2, h3]

/-- Witness for c7_disconnect_order at the one-binding transporter under
the failure-free injection. -/
theorem c7_disconnect_order_witness :
    c7Tr.bindings = some [("MOL.INFO.node-1", "MOL.INFO", "")] ∧
    c7Tr.connection = true ∧ c7Tr.channel = true ∧
    C7Concl c7Tr [("MOL.INFO.node-1", "MOL.INFO", "")] noFail :=
  ⟨rfl, rfl, rfl,
    c7_disconnect_order c7Tr [("MOL.INFO.node-1", "MOL.INFO", "")] noFail rfl rfl rfl⟩

/-- The needAck flag a broker call carries, when it is a consume call. -/
def consumeNeedAck : BrokerCall → Option Bool
  | BrokerCall.consume _ _ needAck _ => some needAck
  | _ => none

/-- Conclusion of claim C8 for a transporter and an untargeted INFO
packet. -/
def C8Concl (tr : Transporter) (pkt : Packet) : Prop :=
  (publish tr pkt).2 =
    BrokerCall.publishEx (tr.pfx ++ "." ++ PACKET_INFO) "" pkt :: serviceTopologyCalls tr ∧
  (∀ s ∈ tr.services, ∀ acts, s.actions = some acts → ∀ a ∈ acts,
    BrokerCall.assertQueue (lbRequestQueue tr.pfx a)
      (_getQueueOptions tr.eventTimeToLive tr.queueOptions PACKET_REQUEST)
      ∈ serviceTopologyCalls tr ∧
    BrokerCall.consume (lbRequestQueue tr.pfx a) PACKET_REQUEST true
      ((tr.consumeNoAck).getD false) ∈ serviceTopologyCalls tr) ∧
  (∀ s ∈ tr.services, ∀ evs, s.events = some evs → ∀ ev ∈ evs,
    BrokerCall.assertQueue (lbEventQueue tr.pfx (eventGroup s ev) ev.name)
      (_getQueueOptions tr.eventTimeToLive tr.queueOptions (PACKET_EVENT ++ "LB"))
      ∈ serviceTopologyCalls tr ∧
    BrokerCall.consume (lbEventQueue tr.pfx (eventGroup s ev) ev.name) PACKET_EVENT true
      ((tr.consumeNoAck).getD false) ∈ serviceTopologyCalls tr) ∧
  (∀ c ∈ serviceTopologyCalls tr, ∀ na, consumeNeedAck c = some na → na = true) ∧
  (∀ (tr2 : Transporter) (cmd : String) (nodeID : Option String),
    ∀ c ∈ (subscribe tr2 cmd nodeID).2, ∀ na, consumeNeedAck c = some na → na = false)

/-- C8: publishing an untargeted INFO packet publishes it to the INFO
fanout exchange and then issues the service-topology calls: for every
locally hosted action, assert the shared action queue and attach a
consumer with needAck true; for every locally hosted event, assert the
group-scoped event queue (configured group or service name) with a
needAck-true consumer; every consumer registered by the topology builder
requires acknowledgement, and every consumer registered by subscribe does
not. -/
theorem c8_info_topology (tr : Transporter) (pkt : Packet) (hch : tr.channel = true)
    (ht : pkt.type = PACKET_INFO) (htg : pkt.target = none) : C8Concl tr pkt := by
  refine ⟨?_, ?_, ?_, ?_, ?_⟩
  · simp [publish, hch, ht, htg, jsFalsy, getTopicName,
      PACKET_INFO, PACKET_EVENT, PACKET_REQUEST]
  · intro s hs acts hacts a ha
    constructor
    · refine List.mem_flatMap.mpr ⟨s, hs, ?_⟩
      refine List.mem_append_left _ ?_
      rw [hacts]
      exact List.mem_flatMap.mpr ⟨a, ha, by simp⟩
    · refine List.mem_flatMap.mpr ⟨s, hs, ?_⟩
      refine List.mem_append_left _ ?_
      rw [hacts]
      exact List.mem_flatMap.mpr ⟨a, ha, by simp⟩
  · intro s hs evs hevs ev hev
    constructor
    · refine List.mem_flatMap.mpr ⟨s, hs, ?_⟩
      refine List.mem_append_right _ ?_
      rw [hevs]
      exact List.mem_flatMap.mpr ⟨ev, hev, by simp⟩
    · refine List.mem_flatMap.mpr ⟨s, hs, ?_⟩
      refine List.mem_append_right _ ?_
      rw [hevs]
      exact List.mem_flatMap.mpr ⟨ev, hev, by simp⟩
  · intro c hc na hna
    rw [serviceTopologyCalls, List.mem_flatMap] at hc
    obtain ⟨s, _, hc⟩ := hc
    rw [List.mem_append] at hc
    rcases hc with hc | hc
    · cases hacts : s.actions with
      | none => rw [hacts] at hc; simp at hc
      | some acts =>
        rw [hacts] at hc
        rw [List.mem_flatMap] at hc
        obtain ⟨a, _, hc⟩ := hc
        simp only [List.mem_cons, List.not_mem_nil, or_false] at hc
        rcases hc with rfl | rfl
        · simp [consumeNeedAck] at hna
        · simp [consumeNeedAck] at hna; exact hna
    · cases hevs : s.events with
      | none => rw [hevs] at hc; simp at hc
      | some evs =>
        rw [hevs] at hc
        rw [List.mem_flatMap] at hc
        obtain ⟨ev, _, hc⟩ := hc
        simp only [List.mem_cons, List.not_mem_nil, or_false] at hc
        rcases hc with rfl | rfl
        · simp [consumeNeedAck] at hna
        · simp [consumeNeedAck] at hna; exact hna
  · intro tr2 cmd nodeID c hc na hna
    by_cases hch2 : tr2.channel
    · cases nodeID with
      | some n =>
        simp only [subscribe, hch2, if_true] at hc
        simp only [List.mem_cons, List.not_mem_nil, or_false] at hc
        rcases hc with rfl | rfl
        · simp [consumeNeedAck] at hna
        · simp [consumeNeedAck] at hna; exact hna
      | none =>
        simp only [subscribe, hch2, if_true] at hc
        simp only [List.mem_cons, List.not_mem_nil, or_false] at hc
        rcases hc with rfl | rfl | rfl | rfl
        · simp [consumeNeedAck] at hna
        · simp [consumeNeedAck] at hna
        · simp [consumeNeedAck] at hna
        · simp [consumeNeedAck] at hna; exact hna
    · simp only [subscribe] at hc
      rw [if_neg hch2] at hc
      simp at hc

/-- Witness for c8_info_topology at the sample transporter, which hosts
one service with one action and one event. -/
theorem c8_info_topology_witness :
    C8Concl sampleTr
      { type := PACKET_INFO, target := none,
        payload := { groups := none, event := "", action := "" } } :=
  c8_info_topology sampleTr
    { type := PACKET_INFO, target := none,
      payload := { groups := none, event := "", action := "" } }
    rfl rfl rfl

end AmqpSpec
